import Mathlib

/-
Shallow embedding of `src/jsonapi.py` (package python-jsonapi).

The source defines two pure-ish functions over Python values:
  * `error_response(status_code, title, detail, source=None) -> str`
  * `success_response(resource_type, resource_link, id_field, attributes=None,
                      metadata=None) -> str`
Python values appearing in these functions (JSON-serializable data) are
modelled by the inductive `Value`.  Python `dict`s are modelled as
association lists in insertion order; Python allows `None` as a dict key
(and `id_field : str | None`), so keys are `Option String`, with `none`
standing for Python `None`.  `dict.pop` and `el[key]` raise `KeyError` on a
missing key; fallible computations return `Except PyErr`.  The single-record
branch of `success_response` pops the identifier out of the caller's own
dict, so the embedding returns, next to the document, the post-call state of
the `attributes` argument.
-/

namespace Jsonapi

/-- A Python value as used by the source: `None`, `str`, `int`, `list`,
`dict` (association list in insertion order, keys `str` or `None`). -/
inductive Value where
  | vNone
  | vStr (s : String)
  | vInt (n : Int)
  | vList (xs : List Value)
  | vDict (kvs : List (Option String × Value))

/-- A Python `dict` with `str | None` keys: association list in insertion
order. -/
abbrev Record := List (Option String × Value)

/-- Python repr of a `str`/`None` dict key (used by `repr` of a dict). -/
def pyKeyRepr : Option String → String
  | Option.some s => "\x27" ++ s ++ "\x27"
  | Option.none => "None"

mutual

/-- Python `repr` of a value (common cases: `repr` of a string is rendered
with single quotes; the quote-choice and escaping subtleties of exotic
strings are outside the data exercised by the source). -/
def Value.pyRepr : Value → String
  | .vNone => "None"
  | .vStr s => "\x27" ++ s ++ "\x27"
  | .vInt n => toString n
  | .vList xs => "[" ++ String.intercalate ", " (pyReprList xs) ++ "]"
  | .vDict kvs => "\x7b" ++ String.intercalate ", " (pyReprKvs kvs) ++ "\x7d"

/-- `repr` of each element of a Python list. -/
def pyReprList : List Value → List String
  | [] => []
  | x :: xs => Value.pyRepr x :: pyReprList xs

/-- `repr` of each entry of a Python dict. -/
def pyReprKvs : List (Option String × Value) → List String
  | [] => []
  | (k, v) :: rest => (pyKeyRepr k ++ ": " ++ Value.pyRepr v) :: pyReprKvs rest

end

/-- Python `str(x)`: a string is itself; every other value renders as its
`repr` (`str(1) = "1"`, `str(None) = "None"`).  This is what an f-string
interpolation performs. -/
def Value.pyStr : Value → String
  | .vStr s => s
  | v => v.pyRepr

/-- One hexadecimal digit, lowercase, as emitted by `json.dumps` in
`\uXXXX` escapes. -/
def hexDigit (n : Nat) : Char :=
  if n < 10 then Char.ofNat (48 + n) else Char.ofNat (87 + n)

/-- Four lowercase hex digits. -/
def hex4 (n : Nat) : String :=
  String.mk [hexDigit (n / 4096 % 16), hexDigit (n / 256 % 16),
             hexDigit (n / 16 % 16), hexDigit (n % 16)]

/-- `json.dumps` escaping of one character (default `ensure_ascii=True`:
`"`, `\`, the named control escapes, `\uXXXX` outside `0x20`–`0x7e`,
surrogate pairs above `0xffff`). -/
def jsonEscapeChar (c : Char) : String :=
  if c = '"' then "\\\""
  else if c = '\\' then "\\\\"
  else if c = '\n' then "\\n"
  else if c = '\t' then "\\t"
  else if c = '\r' then "\\r"
  else if c = Char.ofNat 8 then "\\b"
  else if c = Char.ofNat 12 then "\\f"
  else if c.toNat ≥ 65536 then
    "\\u" ++ hex4 (55296 + (c.toNat - 65536) / 1024)
      ++ "\\u" ++ hex4 (56320 + (c.toNat - 65536) % 1024)
  else if c.toNat < 32 ∨ c.toNat > 126 then "\\u" ++ hex4 c.toNat
  else String.singleton c

/-- `json.dumps` escaping of a string body. -/
def jsonEscape (s : String) : String :=
  String.join (s.data.map jsonEscapeChar)

/-- `json.dumps` of a `str`-or-`None` dict key (`json.dumps(\x7bNone: 1\x7d)`
renders the key as `"null"`). -/
def dumpKey : Option String → String
  | Option.some s => "\"" ++ jsonEscape s ++ "\""
  | Option.none => "\"null\""

mutual

/-- `json.dumps` with its defaults: separators `", "` and `": "`,
insertion-order keys, `ensure_ascii=True`. -/
def dumps : Value → String
  | .vNone => "null"
  | .vStr s => "\"" ++ jsonEscape s ++ "\""
  | .vInt n => toString n
  | .vList xs => "[" ++ String.intercalate ", " (dumpsList xs) ++ "]"
  | .vDict kvs => "\x7b" ++ String.intercalate ", " (dumpsKvs kvs) ++ "\x7d"

/-- `json.dumps` of each element of a list. -/
def dumpsList : List Value → List String
  | [] => []
  | x :: xs => dumps x :: dumpsList xs

/-- `json.dumps` of each `key: value` entry of a dict. -/
def dumpsKvs : List (Option String × Value) → List String
  | [] => []
  | (k, v) :: rest => (dumpKey k ++ ": " ++ dumps v) :: dumpsKvs rest

end

/-- Errors a call can raise.  The source only ever raises the builtin
`KeyError` (from `attributes.pop(id_field)` and `el[id_field]`), which
carries the missing key.  `missingIdentifierError` (carrying the offending
record index for multi-record input) and `invalidArgumentError` are
modelled from the spec: its §7 error taxonomy names `MissingIdentifierError`
and `InvalidArgumentError`, but no such classes exist in the source; the
constructors exist so that the spec's claims about them are statable. -/
inductive PyErr where
  | keyError (k : Option String)
  | missingIdentifierError (index : Option Nat)
  | invalidArgumentError

/-- Python `d.get(k)` / `d[k]` lookup on a dict (first matching key; a real
dict has unique keys). -/
def Record.get? (r : Record) (k : Option String) : Option Value :=
  (r.find? (fun kv => kv.1 == k)).map (fun kv => kv.2)

/-- Python `d.pop(k)` with no default: returns the value at `k` and the
dict with `k` removed; raises `KeyError(k)` (leaving the dict unchanged)
when `k` is absent. -/
def Record.pop (r : Record) (k : Option String) : Except PyErr (Value × Record) :=
  match Record.get? r k with
  | Option.none => .error (.keyError k)
  | Option.some v => .ok (v, r.filter (fun kv => kv.1 != k))

/-- The `attributes` argument of `success_response`:
`dict | list[dict] | None`.  A Python `tuple` of dicts behaves identically
to a `list` in the source (`isinstance(attributes, (list, tuple))`), so both
are `listArg`.  `noneArg` is `None` (the `else` branch). -/
inductive AttrArg where
  | noneArg
  | dictArg (r : Record)
  | listArg (l : List Record)

/-- `metadata.get(k)` on the `metadata` dict (string keys, per the
signature `dict[str, str | int]`). -/
def metaGet (m : List (String × Value)) (k : String) : Option Value :=
  (m.find? (fun kv => kv.1 == k)).map (fun kv => kv.2)

/-- Lines 3–21 of the source, up to serialization: the error document that
`error_response` passes to `json.dumps`.  `if source:` is Python truthiness:
a non-`None`, non-empty dict. -/
def error_doc (status_code : Int) (title : String) (detail : String)
    (source : Option Record) : Value :=
  let base : Record :=
    [(some "status", .vStr (toString status_code)),
     (some "title", .vStr title),
     (some "detail", .vStr detail)]
  let err : Record :=
    match source with
    | Option.some s => if s.isEmpty then base else base ++ [(some "source", .vDict s)]
    | Option.none => base
  .vDict [(some "errors", .vList [.vDict err])]

/-- `error_response` itself: the serialized string. -/
def error_response (status_code : Int) (title : String) (detail : String)
    (source : Option Record) : String :=
  dumps (error_doc status_code title detail source)

/-- The `meta` block of the list branch (lines 61–68): `"page"` with
`total` defaulting to `None`, `count` to `len(attributes)`, `number` to 1,
`size` to 30, each overridable from `metadata`. -/
def pageMeta (metadata : List (String × Value)) (len : Nat) : Value :=
  .vDict [(some "page", .vDict
    [(some "total", (metaGet metadata "total").getD .vNone),
     (some "count", (metaGet metadata "page_count").getD (.vInt len)),
     (some "number", (metaGet metadata "page_number").getD (.vInt 1)),
     (some "size", (metaGet metadata "size").getD (.vInt 30))])]

/-- The loop body of lines 70–82: one resource object per record;
`el[id_field]` raises `KeyError` on a missing key, the attributes are the
record's other entries in original order, and the self link is the f-string
`f"\x7bresource_link\x7d/\x7bresource_id\x7d"`. -/
def buildResource (resource_type : String) (resource_link : String)
    (id_field : Option String) (el : Record) : Except PyErr Value :=
  match Record.get? el id_field with
  | Option.none => .error (.keyError id_field)
  | Option.some rid => .ok (.vDict
      [(some "type", .vStr resource_type),
       (some "id", rid),
       (some "attributes", .vDict (el.filter (fun kv => kv.1 != id_field))),
       (some "links", .vDict
         [(some "self", .vStr (resource_link ++ "/" ++ rid.pyStr))])])

/-- The `for el in attributes:` loop of lines 70–82: builds the resource
objects in input order, aborting with the raised error at the first record
that lacks the identifier key. -/
def buildResources (resource_type : String) (resource_link : String)
    (id_field : Option String) : List Record → Except PyErr (List Value)
  | [] => .ok []
  | el :: rest =>
    match buildResource resource_type resource_link id_field el with
    | .error e => .error e
    | .ok d =>
      match buildResources resource_type resource_link id_field rest with
      | .error e => .error e
      | .ok ds => .ok (d :: ds)

/-- Lines 24–85 up to serialization: the document `success_response` passes
to `json.dumps`, paired with the post-call state of the caller's
`attributes` argument (the dict branch pops `id_field` out of the caller's
dict; the list branch and the `else` branch leave it untouched). -/
def success_doc (resource_type : String) (resource_link : String)
    (id_field : Option String) (attributes : AttrArg)
    (metadata : List (String × Value)) : Except PyErr Value × AttrArg :=
  match attributes with
  | .dictArg r =>
    match Record.pop r id_field with
    | .error e => (.error e, .dictArg r)
    | .ok (v, rest) =>
      (.ok (.vDict
        [(some "jsonapi", .vDict [(some "version", .vStr "1.1")]),
         (some "data", .vDict
           [(some "type", .vStr resource_type),
            (some "id", v),
            (some "attributes", .vDict rest),
            (some "links", .vDict [(some "self", .vStr resource_link)])]),
         (some "meta", .vDict [])]),   -- "#to be filled" in the source
       .dictArg rest)
  | .listArg l =>
    match buildResources resource_type resource_link id_field l with
    | .error e => (.error e, .listArg l)
    | .ok ds =>
      (.ok (.vDict
        [(some "jsonapi", .vDict [(some "version", .vStr "1.1")]),
         (some "data", .vList ds),
         (some "meta", pageMeta metadata l.length)]),
       .listArg l)
  | .noneArg =>
    (.ok (.vDict [(some "jsonapi", .vDict [(some "version", .vStr "1.1")])]),
     .noneArg)

/-- `success_response` itself: the serialized string (or the raised error),
paired with the post-call state of the caller's `attributes`. -/
def success_response (resource_type : String) (resource_link : String)
    (id_field : Option String) (attributes : AttrArg)
    (metadata : List (String × Value)) : Except PyErr String × AttrArg :=
  let r := success_doc resource_type resource_link id_field attributes metadata
  (r.1.map dumps, r.2)

/-- Truthiness of the `source` argument of `error_response`: `if source:`
is true exactly for a non-`None`, non-empty dict. -/
def sourceTruthy : Option Record → Bool
  | Option.some s => !s.isEmpty
  | Option.none => false

/-- Whether a computation raised the spec's `MissingIdentifierError`. -/
def raisesMissingIdentifier (r : Except PyErr Value) : Bool :=
  match r with
  | .error (.missingIdentifierError _) => true
  | _ => false

/-- Whether a computation raised the spec's `InvalidArgumentError`. -/
def raisesInvalidArgument (r : Except PyErr Value) : Bool :=
  match r with
  | .error .invalidArgumentError => true
  | _ => false

/-- The top-level keys of a successfully built document. -/
def docTopKeys (r : Except PyErr Value) : List (Option String) :=
  match r with
  | .ok (.vDict kvs) => kvs.map (fun kv => kv.1)
  | _ => []

/-- `doc["meta"]["page"]` of a successfully built document, when present. -/
def resultPage (r : Except PyErr Value) : Option Value :=
  match r with
  | .ok (.vDict kvs) =>
    match (kvs.find? (fun kv => kv.1 == some "meta")).map (fun kv => kv.2) with
    | Option.some (Value.vDict mkvs) =>
      ((mkvs.find? (fun kv => kv.1 == some "page")).map (fun kv => kv.2))
    | _ => Option.none
  | _ => Option.none

/-- `doc["data"]` of a successfully built document, when present. -/
def resultData (r : Except PyErr Value) : Option Value :=
  match r with
  | .ok (.vDict kvs) =>
    (kvs.find? (fun kv => kv.1 == some "data")).map (fun kv => kv.2)
  | _ => Option.none

/-- The resource object the spec (§4.2, multi-record case) describes for
one record: the identifier read without mutation, `attributes` the other
entries in their original order, and the self link
`resource_link ++ "/" ++ id`.  Written from the spec's words for comparison
with `buildResource`; the `.getD .vNone` default is never reached when the
record contains the identifier key. -/
def specResource (resource_type : String) (resource_link : String)
    (id_field : Option String) (r : Record) : Value :=
  let rid := (Record.get? r id_field).getD .vNone
  .vDict [(some "type", .vStr resource_type),
          (some "id", rid),
          (some "attributes", .vDict (r.filter (fun kv => kv.1 != id_field))),
          (some "links", .vDict
            [(some "self", .vStr (resource_link ++ "/" ++ rid.pyStr))])]

lemma buildResources_ok (rt rl : String) (idf : Option String) (l : List Record)
    (h : l.all (fun r => (Record.get? r idf).isSome) = true) :
    buildResources rt rl idf l = .ok (l.map (specResource rt rl idf)) := by
  induction l with
  | nil => rfl
  | cons r0 rest ih =>
    simp only [List.all_cons, Bool.and_eq_true] at h
    obtain ⟨h1, h2⟩ := h
    obtain ⟨v, hv⟩ := Option.isSome_iff_exists.mp h1
    simp [buildResources, buildResource, hv, ih h2, specResource]

lemma buildResources_error (rt rl : String) (idf : Option String) (l : List Record)
    (h : ∃ r ∈ l, Record.get? r idf = Option.none) :
    buildResources rt rl idf l = .error (.keyError idf) := by
  induction l with
  | nil => simp at h
  | cons r0 rest ih =>
    obtain ⟨r, hr, hnone⟩ := h
    rcases List.mem_cons.mp hr with rfl | hmem
    · simp [buildResources, buildResource, hnone]
    · cases h0 : Record.get? r0 idf with
      | none => simp [buildResources, buildResource, h0]
      | some v => simp [buildResources, buildResource, h0, ih ⟨r, hmem, hnone⟩]

/-- C1: the claim states that caller-supplied records are unchanged after a
success call, the identifier being extracted from a derived copy.  The code
violates this in the single-record branch, which uses
`attributes.pop(id_field)` on the caller's own dict.  Evaluating the
embedding at the failing input: after the call the caller's record has lost
its `"id"` entry.  (The multi-record branch reads `el[id_field]` without
mutation.) -/
theorem C1_single_record_mutation :
    (success_doc "user" "/users" (some "id")
        (.dictArg [(some "id", Value.vStr "1"), (some "name", Value.vStr "A")]) []).2
      = .dictArg [(some "name", Value.vStr "A")] := rfl

/-- C2 counterexample: the claim says a single-record success document has
exactly the top-level keys `jsonapi` and `data`.  At a concrete
single-record call the document's top-level keys are `jsonapi`, `data` and
`meta` (the source adds an empty `"meta"` dict, line 53). -/
theorem C2_counterexample :
    docTopKeys ((success_doc "user" "/users/1" (some "id")
        (.dictArg [(some "id", Value.vStr "1"), (some "name", Value.vStr "A")]) []).1)
      = [some "jsonapi", some "data", some "meta"] := rfl

/-- C2 (amended): for every single-record success call whose record contains
the `id_field` key, the document has exactly the top-level keys `jsonapi`,
`data` and `meta` — `meta` being the empty object, so no pagination
metadata block — with `data` made of `type`, the extracted `id`, the
remaining attributes in original order, and `links.self = resource_link`. -/
theorem C2_single_record_doc (rt rl : String) (idf : Option String) (r : Record)
    (v : Value) (m : List (String × Value))
    (h : Record.get? r idf = Option.some v) :
    (success_doc rt rl idf (.dictArg r) m).1
      = .ok (.vDict
          [(some "jsonapi", .vDict [(some "version", .vStr "1.1")]),
           (some "data", .vDict
             [(some "type", .vStr rt),
              (some "id", v),
              (some "attributes", .vDict (r.filter (fun kv => kv.1 != idf))),
              (some "links", .vDict [(some "self", .vStr rl)])]),
           (some "meta", .vDict [])]) := by
  simp [success_doc, Record.pop, h]

/-- C2 witness: the amended single-record theorem applied at the spec's own
example record. -/
theorem C2_single_record_doc_witness :
    (Record.get? [(some "id", Value.vStr "42"), (some "name", Value.vStr "Alice")]
        (some "id") = Option.some (Value.vStr "42"))
    ∧ (success_doc "user" "/users/42" (some "id")
        (.dictArg [(some "id", Value.vStr "42"), (some "name", Value.vStr "Alice")]) []).1
      = .ok (.vDict
          [(some "jsonapi", .vDict [(some "version", .vStr "1.1")]),
           (some "data", .vDict
             [(some "type", .vStr "user"),
              (some "id", .vStr "42"),
              (some "attributes", .vDict [(some "name", Value.vStr "Alice")]),
              (some "links", .vDict [(some "self", .vStr "/users/42")])]),
           (some "meta", .vDict [])]) :=
  ⟨rfl, C2_single_record_doc "user" "/users/42" (some "id")
    [(some "id", Value.vStr "42"), (some "name", Value.vStr "Alice")]
    (Value.vStr "42") [] rfl⟩

/-- C3 counterexample: the claim says a record lacking the `id_field` key
makes the builder raise `MissingIdentifierError` naming the record's index.
At a concrete two-record call whose second record lacks `"id"`, the code
raises the builtin `KeyError` carrying the key, and no
`MissingIdentifierError` is raised. -/
theorem C3_counterexample :
    ((success_doc "user" "/users" (some "id")
        (.listArg [[(some "id", Value.vStr "1")], [(some "name", Value.vStr "B")]]) []).1
      = .error (.keyError (some "id")))
    ∧ raisesMissingIdentifier ((success_doc "user" "/users" (some "id")
        (.listArg [[(some "id", Value.vStr "1")], [(some "name", Value.vStr "B")]]) []).1)
      = false := ⟨rfl, rfl⟩

/-- C3 (amended): for every success call in which the single record, or some
record of the sequence, lacks the `id_field` key, the builder raises the
builtin `KeyError` naming the missing key (not a `MissingIdentifierError`,
and not the record's index), rather than silently omitting the resource. -/
theorem C3_missing_identifier_key_error (rt rl : String) (idf : Option String)
    (a : AttrArg) (m : List (String × Value))
    (h : match a with
      | .dictArg r => Record.get? r idf = Option.none
      | .listArg l => ∃ r ∈ l, Record.get? r idf = Option.none
      | .noneArg => False) :
    (success_doc rt rl idf a m).1 = .error (.keyError idf) := by
  cases a with
  | dictArg r => simp [success_doc, Record.pop, h]
  | listArg l => simp [success_doc, buildResources_error rt rl idf l h]
  | noneArg => exact h.elim

/-- C3 witness: the amended theorem applied to a single record that lacks
the `"id"` key. -/
theorem C3_missing_identifier_key_error_witness :
    (Record.get? [(some "name", Value.vStr "B")] (some "id") = Option.none)
    ∧ (success_doc "user" "/users" (some "id")
        (.dictArg [(some "name", Value.vStr "B")]) []).1
      = .error (.keyError (some "id")) :=
  ⟨rfl, C3_missing_identifier_key_error "user" "/users" (some "id")
    (.dictArg [(some "name", Value.vStr "B")]) [] rfl⟩

/-- C4 counterexample: the claim says `id_field = None` with records present
raises `InvalidArgumentError`.  At a concrete single-record call the code
instead raises `KeyError(None)` (`None` is looked up like any other dict
key), and with an empty sequence the call even succeeds. -/
theorem C4_counterexample :
    ((success_doc "user" "/users" Option.none
        (.dictArg [(some "id", Value.vStr "1")]) []).1
      = .error (.keyError Option.none))
    ∧ raisesInvalidArgument ((success_doc "user" "/users" Option.none
        (.dictArg [(some "id", Value.vStr "1")]) []).1) = false
    ∧ ((success_doc "user" "/users" Option.none (.listArg []) []).1).isOk = true :=
  ⟨rfl, rfl, rfl⟩

/-- C4 (amended): with `id_field = None` and a single record, or a nonempty
sequence of records, none of which has `None` as a key, the builder raises
the builtin `KeyError` on key `None` — never `InvalidArgumentError`.  (An
empty sequence succeeds without any error.) -/
theorem C4_none_id_field_key_error (rt rl : String) (a : AttrArg)
    (m : List (String × Value))
    (h : match a with
      | .dictArg r => Record.get? r Option.none = Option.none
      | .listArg l => l ≠ [] ∧ ∀ r ∈ l, Record.get? r Option.none = Option.none
      | .noneArg => False) :
    (success_doc rt rl Option.none a m).1 = .error (.keyError Option.none) := by
  cases a with
  | dictArg r => simp [success_doc, Record.pop, h]
  | listArg l =>
    obtain ⟨hne, hall⟩ := h
    obtain ⟨r0, rest, rfl⟩ := List.exists_cons_of_ne_nil hne
    simp [success_doc, buildResources_error rt rl Option.none (r0 :: rest)
      ⟨r0, List.mem_cons_self r0 rest, hall r0 (List.mem_cons_self r0 rest)⟩]
  | noneArg => exact h.elim

/-- C4 witness: the amended theorem applied to a single record with only a
string key. -/
theorem C4_none_id_field_key_error_witness :
    (Record.get? [(some "id", Value.vStr "7")] Option.none = Option.none)
    ∧ (success_doc "device" "/devices" Option.none
        (.dictArg [(some "id", Value.vStr "7")]) []).1
      = .error (.keyError Option.none) :=
  ⟨rfl, C4_none_id_field_key_error "device" "/devices"
    (.dictArg [(some "id", Value.vStr "7")]) [] rfl⟩

/-- C5: for every multi-record success call in which each record contains
the `id_field` key, `data` is the ordered sequence, same length and order as
the input, of the spec's resource objects: `type`, the record's identifier
value, the record's other entries in their original order as `attributes`,
and `links.self = resource_link ++ "/" ++ identifier`. -/
theorem C5_multi_record_data (rt rl : String) (idf : Option String)
    (l : List Record) (m : List (String × Value))
    (h : l.all (fun r => (Record.get? r idf).isSome) = true) :
    resultData ((success_doc rt rl idf (.listArg l) m).1)
      = Option.some (.vList (l.map (specResource rt rl idf))) := by
  simp [success_doc, buildResources_ok rt rl idf l h, resultData]

/-- C5 witness: the multi-record theorem applied at the spec's own §8
example (two records, resource link `/things`), with the resource objects
written out: self links `/things/1` and `/things/2`, in input order. -/
theorem C5_multi_record_data_witness :
    ([[(some "id", Value.vStr "1"), (some "name", Value.vStr "A")],
      [(some "id", Value.vStr "2"), (some "name", Value.vStr "B")]].all
        (fun r => (Record.get? r (some "id")).isSome) = true)
    ∧ resultData ((success_doc "thing" "/things" (some "id")
        (.listArg [[(some "id", Value.vStr "1"), (some "name", Value.vStr "A")],
                   [(some "id", Value.vStr "2"), (some "name", Value.vStr "B")]]) []).1)
      = Option.some (.vList
          [.vDict [(some "type", .vStr "thing"), (some "id", .vStr "1"),
                   (some "attributes", .vDict [(some "name", .vStr "A")]),
                   (some "links", .vDict [(some "self", .vStr "/things/1")])],
           .vDict [(some "type", .vStr "thing"), (some "id", .vStr "2"),
                   (some "attributes", .vDict [(some "name", .vStr "B")]),
                   (some "links", .vDict [(some "self", .vStr "/things/2")])]]) :=
  ⟨rfl, C5_multi_record_data "thing" "/things" (some "id")
    [[(some "id", Value.vStr "1"), (some "name", Value.vStr "A")],
     [(some "id", Value.vStr "2"), (some "name", Value.vStr "B")]] [] rfl⟩

/-- C6: for every multi-record success call with no pagination metadata,
`meta.page` has `total = null`, `count` the length of the supplied sequence,
`number = 1` and `size = 30`. -/
theorem C6_default_page_meta (rt rl : String) (idf : Option String)
    (l : List Record)
    (h : l.all (fun r => (Record.get? r idf).isSome) = true) :
    resultPage ((success_doc rt rl idf (.listArg l) []).1)
      = Option.some (.vDict
          [(some "total", Value.vNone),
           (some "count", Value.vInt (l.length : Int)),
           (some "number", Value.vInt 1),
           (some "size", Value.vInt 30)]) := by
  simp [success_doc, buildResources_ok rt rl idf l h, resultPage, pageMeta, metaGet]

/-- C6 witness: the default-pagination theorem applied at the spec's
2-element example: `count = 2`, `number = 1`, `size = 30`, `total = null`. -/
theorem C6_default_page_meta_witness :
    ([[(some "id", Value.vStr "1")], [(some "id", Value.vStr "2")]].all
        (fun r => (Record.get? r (some "id")).isSome) = true)
    ∧ resultPage ((success_doc "thing" "/things" (some "id")
        (.listArg [[(some "id", Value.vStr "1")], [(some "id", Value.vStr "2")]]) []).1)
      = Option.some (.vDict
          [(some "total", Value.vNone), (some "count", Value.vInt 2),
           (some "number", Value.vInt 1), (some "size", Value.vInt 30)]) :=
  ⟨rfl, C6_default_page_meta "thing" "/things" (some "id")
    [[(some "id", Value.vStr "1")], [(some "id", Value.vStr "2")]] rfl⟩

/-- C7: for every multi-record success call whose metadata supplies the
recognized keys — `total`, `page_count`, `page_number`, `size` in the code,
written `total`/`pageCount`/`pageNumber`/`size` in the spec's camel-case
rendering of source identifiers — `meta.page` carries the supplied values in
place of the defaults. -/
theorem C7_supplied_page_meta (rt rl : String) (idf : Option String)
    (l : List Record) (m : List (String × Value)) (t c n s : Value)
    (h : l.all (fun r => (Record.get? r idf).isSome) = true)
    (ht : metaGet m "total" = Option.some t)
    (hc : metaGet m "page_count" = Option.some c)
    (hn : metaGet m "page_number" = Option.some n)
    (hs : metaGet m "size" = Option.some s) :
    resultPage ((success_doc rt rl idf (.listArg l) m).1)
      = Option.some (.vDict
          [(some "total", t), (some "count", c),
           (some "number", n), (some "size", s)]) := by
  simp [success_doc, buildResources_ok rt rl idf l h, resultPage, pageMeta,
    ht, hc, hn, hs]

/-- C7 witness: the supplied-pagination theorem applied with all four keys
given, each overriding its default. -/
theorem C7_supplied_page_meta_witness :
    ([[(some "id", Value.vStr "1")]].all
        (fun r => (Record.get? r (some "id")).isSome) = true)
    ∧ metaGet [("total", Value.vInt 50), ("page_count", Value.vInt 1),
               ("page_number", Value.vInt 3), ("size", Value.vInt 2)] "total"
        = Option.some (Value.vInt 50)
    ∧ metaGet [("total", Value.vInt 50), ("page_count", Value.vInt 1),
               ("page_number", Value.vInt 3), ("size", Value.vInt 2)] "page_count"
        = Option.some (Value.vInt 1)
    ∧ metaGet [("total", Value.vInt 50), ("page_count", Value.vInt 1),
               ("page_number", Value.vInt 3), ("size", Value.vInt 2)] "page_number"
        = Option.some (Value.vInt 3)
    ∧ metaGet [("total", Value.vInt 50), ("page_count", Value.vInt 1),
               ("page_number", Value.vInt 3), ("size", Value.vInt 2)] "size"
        = Option.some (Value.vInt 2)
    ∧ resultPage ((success_doc "thing" "/things" (some "id")
        (.listArg [[(some "id", Value.vStr "1")]])
        [("total", Value.vInt 50), ("page_count", Value.vInt 1),
         ("page_number", Value.vInt 3), ("size", Value.vInt 2)]).1)
      = Option.some (.vDict
          [(some "total", Value.vInt 50), (some "count", Value.vInt 1),
           (some "number", Value.vInt 3), (some "size", Value.vInt 2)]) :=
  ⟨rfl, rfl, rfl, rfl, rfl,
    C7_supplied_page_meta "thing" "/things" (some "id")
      [[(some "id", Value.vStr "1")]]
      [("total", Value.vInt 50), ("page_count", Value.vInt 1),
       ("page_number", Value.vInt 3), ("size", Value.vInt 2)]
      (Value.vInt 50) (Value.vInt 1) (Value.vInt 3) (Value.vInt 2)
      rfl rfl rfl rfl rfl⟩

/-- C8: the claim says calling a builder twice in succession with identical
inputs succeeds both times with byte-identical strings.  The code violates
it for the single-record success call: the first call pops the identifier
out of the caller's dict, so the second call on the same dict raises
`KeyError("id")` instead of succeeding.  This theorem evaluates the
embedding at that failing input: the first call succeeds, and the second
call — fed the post-call state of the caller's `attributes` — raises. -/
theorem C8_second_call_key_error :
    ((success_response "user" "/users" (some "id")
        (.dictArg [(some "id", Value.vStr "1"), (some "name", Value.vStr "A")]) []).1).isOk
      = true
    ∧ (success_response "user" "/users" (some "id")
        ((success_response "user" "/users" (some "id")
          (.dictArg [(some "id", Value.vStr "1"), (some "name", Value.vStr "A")]) []).2) []).1
      = .error (.keyError (some "id")) := ⟨rfl, rfl⟩

/-- C9: for every error-builder call, the document has exactly one entry in
`errors`; that entry's `status` is the string form of the status code; and
its `source` key is present exactly when a non-empty source mapping was
supplied. -/
theorem C9_error_shape (code : Int) (title : String) (detail : String)
    (source : Option Record) :
    ∃ err : Record,
      error_doc code title detail source = .vDict [(some "errors", .vList [.vDict err])]
      ∧ Record.get? err (some "status") = Option.some (.vStr (toString code))
      ∧ (Record.get? err (some "source")).isSome = sourceTruthy source := by
  cases source with
  | none => exact ⟨_, rfl, rfl, rfl⟩
  | some s =>
    cases s with
    | nil => exact ⟨_, rfl, rfl, rfl⟩
    | cons kv rest => exact ⟨_, rfl, rfl, rfl⟩

/-- C10: a success call on an empty sequence yields the collection-shaped
document, not the jsonapi-only one: `data = []` and `meta.page` with
`count = 0`, `number = 1`, `size = 30`, `total = null` when no metadata is
supplied. -/
theorem C10_empty_sequence_doc (rt rl : String) (idf : Option String) :
    (success_doc rt rl idf (.listArg []) []).1
      = .ok (.vDict
          [(some "jsonapi", .vDict [(some "version", .vStr "1.1")]),
           (some "data", .vList []),
           (some "meta", .vDict
             [(some "page", .vDict
               [(some "total", Value.vNone), (some "count", Value.vInt 0),
                (some "number", Value.vInt 1), (some "size", Value.vInt 30)])])]) := rfl

end Jsonapi
